import Mathlib

/-!
Verification of the Wan2.2 serving gateway (`entrypoint/app.py`,
`entrypoint/s3_util.py`, `entrypoint/models.py`) against its
natural-language specification.

The Python code is shallowly embedded: pure string manipulation is
translated to executable Lean functions over `List Char` / `String`;
the two FastAPI handlers are translated to functions from an explicit
environment (outcomes of the S3 calls, the child process, the lock
acquisition) to a response paired with a trace of filesystem /
lock actions; the `asyncio.Lock` admission gate is modelled as a
transition system.
-/

namespace Wan

/-! ### Python string primitives

Executable models of the Python string operations the gateway uses:
`str.split(sep)` with a one-character separator, `str.strip()`,
`in` (substring containment), `str.rstrip('/')`, `os.path.basename`,
and `int(...)` parsing.  All are written over `List Char` so that they
compute by kernel reduction. -/

/-- Does `l` begin with the pattern `pat`? (list version of Python
`str.startswith`). -/
def beginsWith {α : Type} [BEq α] : (pat l : List α) → Bool
  | [], _ => true
  | _ :: _, [] => false
  | a :: as, b :: bs => a == b && beginsWith as bs

/-- Substring containment on char lists: Python's `needle in hay`. -/
def containsList (pat : List Char) : List Char → Bool
  | [] => beginsWith pat []
  | c :: rest => beginsWith pat (c :: rest) || containsList pat rest

/-- Python `needle in hay` on strings. -/
def pyContains (hay needle : String) : Bool :=
  containsList needle.toList hay.toList

/-- Python `hay.startswith(needle)` on strings. -/
def pyStarts (hay needle : String) : Bool :=
  beginsWith needle.toList hay.toList

/-- Auxiliary splitter: splits a char list at every occurrence of `sep`. -/
def splitCharAux (sep : Char) : List Char → List Char → List (List Char)
  | [], acc => [acc.reverse]
  | c :: rest, acc =>
    if c == sep then acc.reverse :: splitCharAux sep rest []
    else splitCharAux sep rest (c :: acc)

/-- Python `s.split(sep)` for a one-character separator `sep`.
`"".split(sep) = [""]` and the result is never empty, as in Python. -/
def pySplitChar (sep : Char) (s : String) : List String :=
  (splitCharAux sep s.toList []).map String.mk

/-- ASCII whitespace recognized by Python `str.strip()`. -/
def wsChar (c : Char) : Bool :=
  c == ' ' || c == '\t' || c == '\n' || c == '\r' || c == '\x0b' || c == '\x0c'

/-- Python `s.strip()` (whitespace on both ends). -/
def pyStrip (s : String) : String :=
  String.mk (((s.toList.dropWhile wsChar).reverse.dropWhile wsChar).reverse)

/-- Python `s.rstrip('/')`: removes every trailing slash. -/
def rstripSlashes (s : String) : String :=
  String.mk (s.toList.reverse.dropWhile (· == '/')).reverse

/-- Python `s.endswith('/')`. -/
def endsWithSlash (s : String) : Bool :=
  s.toList.getLast? == some '/'

/-- Python `os.path.basename` for forward-slash paths: the part after
the last separator. -/
def pyBasename (s : String) : String :=
  (pySplitChar '/' s).getLastD ""

/-- Decimal digit character for `n < 10` (used by the model of Python
`str(int)`). -/
def digitChar : Nat → Char
  | 0 => '0' | 1 => '1' | 2 => '2' | 3 => '3' | 4 => '4'
  | 5 => '5' | 6 => '6' | 7 => '7' | 8 => '8' | 9 => '9'
  | _ => '?'

/-- Fuel-driven decimal digit expansion, most significant digit first. -/
def natDigitsAux : Nat → Nat → List Char → List Char
  | 0, _, acc => acc
  | fuel + 1, n, acc =>
    if n < 10 then digitChar n :: acc
    else natDigitsAux fuel (n / 10) (digitChar (n % 10) :: acc)

/-- Python `str(n)` for a natural number. -/
def pyStrNat (n : Nat) : String :=
  String.mk (natDigitsAux (n + 1) n [])

/-- Python `str(n)` for an integer. -/
def pyStrInt (n : Int) : String :=
  if n < 0 then "-" ++ pyStrNat n.natAbs else pyStrNat n.natAbs

/-- Python `str(x)` for an `Optional[int]`: `str(None) = "None"`. -/
def pyStrOptInt : Option Int → String
  | none => "None"
  | some n => pyStrInt n

/-- Parses a nonempty all-digit char list as a natural number. -/
def parseDigits : List Char → Option Nat
  | [] => none
  | cs =>
    if cs.all Char.isDigit then
      some (cs.foldl (fun a c => a * 10 + (c.toNat - 48)) 0)
    else none

/-- Python `int(s)` on an already-stripped string: optional sign
followed by at least one digit, otherwise a `ValueError` (`none`). -/
def pyIntParse (s : String) : Option Int :=
  match s.toList with
  | [] => none
  | '-' :: rest => (parseDigits rest).map (fun n => -(n : Int))
  | '+' :: rest => (parseDigits rest).map (fun n => (n : Int))
  | cs => (parseDigits cs).map (fun n => (n : Int))

/-! ### Exit-code interpretation (`app.py` lines 95-104, 174-182, 291-298)

`run_subprocess_and_stream_output_async` yields the child's output
lines and finally the synthetic sentinel line
`"Process completed with return code: <N>\n"`.  Both handlers fold
over the lines: any line containing the sentinel text updates the
return code via `int(output.split(":")[-1].strip())`, with a
`ValueError` mapped to `1`. -/

/-- The sentinel text tested with Python `in` by both handlers. -/
def sentinelText : String := "Process completed with return code:"

/-- One step of the handlers' streaming loop: the effect of one output
line on the tracked return code (`app.py` lines 176-181). -/
def updateReturnCode (code : Int) (line : String) : Int :=
  if pyContains line sentinelText then
    match pyIntParse (pyStrip ((pySplitChar ':' line).getLastD "")) with
    | some n => n
    | none => 1
  else code

/-- The return code a handler extracts from the full line stream,
starting from the initial value `0`. -/
def interpretOutput (lines : List String) : Int :=
  lines.foldl updateReturnCode 0

/-! ### Request models (`models.py`)

The two pydantic request models, with their `model_validator` checks
as boolean validity predicates.  A request object only reaches a
handler when its validator accepted it. -/

structure PreprocessRequest where
  video_path : String
  refer_path : String
  resolution_area : List Int
  retarget_flag : Bool := false
  use_flux : Bool := false
  iterations : Option Int := none
  k : Option Int := none
  w_len : Option Int := none
  h_len : Option Int := none
  replace_flag : Bool := false
deriving DecidableEq

/-- `PreprocessRequest.check_mutually_exclusive_flags` and
`check_conditional_fields` from `models.py`. -/
def PreprocessRequest.valid (r : PreprocessRequest) : Bool :=
  (!(r.replace_flag && r.use_flux)) &&
  (!r.replace_flag ||
    (r.iterations.isSome && r.k.isSome && r.w_len.isSome && r.h_len.isSome)) &&
  (!r.use_flux || r.retarget_flag)

structure GenerateRequest where
  task : String
  src_root_path : String
  refert_num : Int := 1
  replace_flag : Bool := false
  use_relighting_lora : Bool := false
  nproc_per_node : Int := 1
  nnodes : Int := 1
  dit_fsdp : Bool := false
  t5_fsdp : Bool := false
  ulysses_size : Option Int := none
deriving DecidableEq

/-- `GenerateRequest.check_conditional_generate_fields` from `models.py`. -/
def GenerateRequest.valid (r : GenerateRequest) : Bool :=
  (!r.replace_flag || r.use_relighting_lora) &&
  (!(r.nproc_per_node > 1) ||
    (r.dit_fsdp && r.t5_fsdp && r.ulysses_size.isSome))

structure OutputFile where
  file : String
  url : String
deriving DecidableEq

structure PreprocessResponse where
  message : String
  output_s3_paths : List OutputFile
  filePfx : String
deriving DecidableEq

structure GenerateResponse where
  message : String
  output_s3_paths : List OutputFile
deriving DecidableEq

/-! ### Command construction

`app.py` lines 137-159 (preprocess) and 242-275 (generate). -/

/-- The base argument vector of the preprocess command
(`app.py` lines 137-145), for `resolution_area = [a, b, ...]`. -/
def preprocessBase (sysExe ckptPath videoLocal referLocal savePath : String)
    (a b : Int) : List String :=
  [sysExe,
   "wan/modules/animate/preprocess/preprocess_data.py",
   "--ckpt_path", ckptPath,
   "--video_path", videoLocal,
   "--refer_path", referLocal,
   "--save_path", savePath,
   "--resolution_area", pyStrInt a, pyStrInt b]

/-- The conditional extension of the preprocess command
(`app.py` lines 147-159). -/
def preprocessExt (r : PreprocessRequest) : List String :=
  if r.replace_flag then
    ["--iterations", pyStrOptInt r.iterations,
     "--k", pyStrOptInt r.k,
     "--w_len", pyStrOptInt r.w_len,
     "--h_len", pyStrOptInt r.h_len,
     "--replace_flag"]
  else if r.use_flux then
    ["--retarget_flag", "--use_flux"]
  else []

/-- The full preprocess command.  `request.resolution_area[0]` and
`[1]` raise `IndexError` in Python when the list is shorter than two,
modelled by `none`. -/
def buildPreprocessCommand (sysExe ckptPath videoLocal referLocal savePath : String)
    (r : PreprocessRequest) : Option (List String) :=
  match r.resolution_area with
  | a :: b :: _ =>
    some (preprocessBase sysExe ckptPath videoLocal referLocal savePath a b
          ++ preprocessExt r)
  | _ => none

/-- `base_command` of the generate handler (`app.py` lines 242-256). -/
def generateBase (sysExe ckptDir localSrc outFile : String)
    (r : GenerateRequest) : List String :=
  [sysExe,
   "generate.py",
   "--task", r.task,
   "--ckpt_dir", ckptDir,
   "--src_root_path", localSrc,
   "--refert_num", pyStrInt r.refert_num,
   "--save_file", outFile]
  ++ (if r.replace_flag then ["--replace_flag", "--use_relighting_lora"] else [])

/-- The full generate command (`app.py` lines 258-275): for more than
one process per node the base command (minus its leading interpreter)
is wrapped in the `torch.distributed.run` launch invocation and the
sharding flags are appended. -/
def buildGenerateCommand (sysExe ckptDir localSrc outFile : String)
    (r : GenerateRequest) : List String :=
  if r.nproc_per_node > 1 then
    [sysExe, "-m", "torch.distributed.run",
     "--nnodes", pyStrInt r.nnodes,
     "--nproc_per_node", pyStrInt r.nproc_per_node]
    ++ (generateBase sysExe ckptDir localSrc outFile r).drop 1
    ++ (if r.dit_fsdp then ["--dit_fsdp"] else [])
    ++ (if r.t5_fsdp then ["--t5_fsdp"] else [])
    ++ (match r.ulysses_size with
        | some u => ["--ulysses_size", pyStrInt u]
        | none => [])
  else
    generateBase sysExe ckptDir localSrc outFile r

/-- Does the argument list contain the two strings `a b` adjacently,
in this order? (used to state "contains `--flag value`"). -/
def containsPair (a b : String) : List String → Bool
  | x :: y :: rest => (x == a && y == b) || containsPair a b (y :: rest)
  | _ => false

/-! ### Object-store transfer layer (`s3_util.py`)

The remote store is abstracted by the outcome of each network call
(`S3Env`); the local filesystem relevant to the upload helper is the
list of existing file paths. -/

structure PresignedUrl where
  bucket : String
  key : String
  expiresIn : Nat
deriving DecidableEq

/-- Outcomes of the two remote calls made by the upload helper. -/
structure S3Env where
  uploadOk : Bool
  presignOk : Bool
deriving DecidableEq

/-- `create_presigned_url` (`s3_util.py` lines 72-81): mints a URL for
the object, or returns `None` on a `ClientError`.  Its Python
`expiration` parameter defaults to `3600`. -/
def create_presigned_url (env : S3Env) (bucketName objectName : String)
    (expiration : Nat) : Option PresignedUrl :=
  if env.presignOk then some ⟨bucketName, objectName, expiration⟩ else none

/-- `upload_file_and_get_presigned_url` (`s3_util.py` lines 33-68).
`fs` is the set of local files; the result pairs the returned value
with the filesystem after the call.  The Python `s3_object_prefix`
argument is optional and falls back to `config.prefix_path`
(modelled by `cfgPfxPath`).  Opening a missing file raises, which the
helper's blanket `except` turns into `None`. -/
def upload_file_and_get_presigned_url (env : S3Env)
    (bucket cfgPfxPath : String) (s3ObjectPfx : Option String)
    (fs : List String) (filePath : String) :
    Option PresignedUrl × List String :=
  let base := match s3ObjectPfx with
    | some p => p
    | none => cfgPfxPath
  let objectName := rstripSlashes base ++ "/" ++ pyBasename filePath
  if filePath ∈ fs then
    if env.uploadOk then
      let fs' := fs.erase filePath
      match create_presigned_url env bucket objectName 3600 with
      | some url => (some url, fs')
      | none => (none, fs')
    else (none, fs)
  else (none, fs)

/-! #### Folder download (`s3_util.py` lines 142-200)

`download_s3_folder_to_temp` slash-normalizes the prefix, lists the
objects below it, skips keys ending in `/`, and materializes each
remaining key at `os.path.join(local_root, os.path.relpath(key,
normalized))`.  Paths are modelled as their lists of components
(`os.path.relpath` is lexical and, like `os.path.normpath`, ignores
empty and `"."` components; parent references inside S3 keys are not
modelled). -/

/-- Path components of a forward-slash path, dropping empty and `"."`
components as `os.path.normpath` does. -/
def splitPath (s : String) : List String :=
  (pySplitChar '/' s).filter (fun c => !(c == "") && !(c == "."))

/-- Length of the longest common component run shared by two paths
(the lexical core of `os.path.relpath`). -/
def commonLen : List String → List String → Nat
  | a :: as, b :: bs => if a == b then commonLen as bs + 1 else 0
  | _, _ => 0

/-- `os.path.relpath(path, start)` on forward-slash paths, returned as
the list of components of the relative path (`["."]` when the two
coincide). -/
def relpathComponents (path start : String) : List String :=
  let p := splitPath path
  let s := splitPath start
  let c := commonLen p s
  let res := List.replicate (s.length - c) ".." ++ p.drop c
  if res = [] then ["."] else res

/-- Slash-normalization of the listing prefix (`s3_util.py` lines
170-172): append a trailing separator when absent. -/
def slashNormalize (p : String) : String :=
  if endsWithSlash p then p else p ++ "/"

/-- The local relative paths (as component lists) that
`download_s3_folder_to_temp` materializes under its fresh local root,
given the keys returned by the listing (`s3_util.py` lines 178-197). -/
def folderListingRelPaths (pfx : String) (keys : List String) :
    List (List String) :=
  let p := slashNormalize pfx
  (keys.filter (fun k => !endsWithSlash k)).map (fun k => relpathComponents k p)

/-! ### Pipeline model (`app.py` handlers)

Each handler is a function from its request and an environment of
call outcomes to `(result, action trace)`.  The trace records every
filesystem-shaping and lock-shaping step the handler performs, in
program order. -/

inductive Action where
  /-- `tempfile.mkdtemp()`: creation of the job workspace. -/
  | mkTempDir (d : String)
  /-- The `/tmp/{uuid}` directory created by a download helper
  (`os.makedirs` in `download_s3_url_to_temp` /
  `download_s3_folder_to_temp`). -/
  | inputDirCreated (d : String)
  /-- `os.makedirs(local_save_path)`. -/
  | makeDirs (d : String)
  /-- `asyncio.create_subprocess_exec(*command, ...)`. -/
  | spawn (cmd : List String)
  /-- One call of `upload_file_and_get_presigned_url` on `f`. -/
  | uploadAttempt (f : String)
  /-- `shutil.rmtree(d)`. -/
  | rmtree (d : String)
  /-- `_processing_lock.release()`. -/
  | releaseGate
deriving DecidableEq

/-- Outcome of one call to a download helper.  The helpers create
their `/tmp/{uuid}` directory before the first network call, so a
transfer failure still leaves the directory behind; a malformed URL
returns `None` before any directory is created. -/
inductive DlResult where
  | badUrl
  | fetchFail (dir : String)
  | ok (dir : String)
deriving DecidableEq

/-- Directories a download helper call creates. -/
def DlResult.actions : DlResult → List Action
  | .badUrl => []
  | .fetchFail d => [.inputDirCreated d]
  | .ok d => [.inputDirCreated d]

/-- The helper's return value; for the single-object helper the
returned file path lives inside the created directory, which the
model identifies with the directory itself. -/
def DlResult.value : DlResult → Option String
  | .badUrl => none
  | .fetchFail _ => none
  | .ok d => some d

/-- A handler either returns a response or raises `HTTPException`. -/
inductive PipeResult where
  | okPre (resp : PreprocessResponse)
  | okGen (resp : GenerateResponse)
  | err (status : Nat) (detail : String)
deriving DecidableEq

/-- Environment of one `/preprocess` request: the workspace path
`tempfile.mkdtemp()` picks, the `uuid4` hex, the outcomes of the two
input downloads, the child's output lines, the files `os.walk` finds
under the save path (as paths relative to it), and the per-file
upload outcome. -/
structure PreprocessEnv where
  gateAcquired : Bool
  tempDir : String
  uid : String
  videoDl : DlResult
  referDl : DlResult
  outputLines : List String
  walkFiles : List String
  uploadUrl : String → Option String

/-- The `try` body of `preprocess_video` (`app.py` lines 116-208):
everything between lock acquisition and the `finally` block, as a
result plus the trace of actions performed before leaving the body
(normally or by exception). -/
def preprocessBody (cfgPfxPath sysExe ckptPath : String)
    (req : PreprocessRequest) (env : PreprocessEnv) :
    PipeResult × List Action :=
  let acts1 := [Action.mkTempDir env.tempDir] ++ env.videoDl.actions
  match env.videoDl.value with
  | none =>
    (.err 500 ("Failed to download video from " ++ req.video_path), acts1)
  | some videoPath =>
    let acts2 := acts1 ++ env.referDl.actions
    match env.referDl.value with
    | none =>
      (.err 500 ("Failed to download reference image from " ++ req.refer_path),
       acts2)
    | some referPath =>
      let savePath := env.tempDir ++ "/" ++ env.uid ++ "_process_results"
      let acts3 := acts2 ++ [Action.makeDirs savePath]
      match buildPreprocessCommand sysExe ckptPath videoPath referPath savePath req with
      | none => (.err 500 "list index out of range", acts3)
      | some cmd =>
        let acts4 := acts3 ++ [Action.spawn cmd]
        let rc := interpretOutput env.outputLines
        if rc ≠ 0 then
          (.err 500 ("Script failed with exit code " ++ pyStrInt rc), acts4)
        else
          let sPfx := rstripSlashes cfgPfxPath ++ "/preprocess_result/" ++ env.uid
          let acts5 := acts4 ++ env.walkFiles.map Action.uploadAttempt
          let uploaded := env.walkFiles.filterMap (fun f =>
            (env.uploadUrl f).map (fun u =>
              OutputFile.mk ("preprocess_result/" ++ env.uid ++ "/" ++ f) u))
          (.okPre ⟨"Preprocessing completed successfully", uploaded, sPfx⟩, acts5)

/-- The `/preprocess` handler (`app.py` lines 107-215).  A lock
timeout raises 429 before the `try` block, so no action at all is
performed; otherwise the body runs and the `finally` block appends
`shutil.rmtree(temp_dir)` followed by the lock release, on every exit
path of the body. -/
def preprocess_video (cfgPfxPath sysExe ckptPath : String)
    (req : PreprocessRequest) (env : PreprocessEnv) :
    PipeResult × List Action :=
  if env.gateAcquired then
    let r := preprocessBody cfgPfxPath sysExe ckptPath req env
    (r.1, r.2 ++ [Action.rmtree env.tempDir, Action.releaseGate])
  else
    (.err 429 "System busy, please try again later", [])

/-- Environment of one `/generate` request. -/
structure GenerateEnv where
  gateAcquired : Bool
  tempDir : String
  uid : String
  srcDl : DlResult
  outputLines : List String
  outputFileExists : Bool
  uploadUrl : Option String
deriving DecidableEq

/-- The `try` body of `generate_video` (`app.py` lines 226-322).
The upload key `s3_upload_prefix` the source derives from the
configured path appears only inside the abstracted upload call, so
the configuration path is unused here. -/
def generateBody (_cfgPfxPath sysExe ckptDir : String)
    (req : GenerateRequest) (env : GenerateEnv) :
    PipeResult × List Action :=
  let acts1 := [Action.mkTempDir env.tempDir] ++ env.srcDl.actions
  match env.srcDl.value with
  | none =>
    (.err 500 ("Failed to download source folder from " ++ req.src_root_path),
     acts1)
  | some localSrc =>
    let outFile := env.tempDir ++ "/" ++ env.uid ++ "_output.mp4"
    let cmd := buildGenerateCommand sysExe ckptDir localSrc outFile req
    let acts2 := acts1 ++ [Action.spawn cmd]
    let rc := interpretOutput env.outputLines
    if rc ≠ 0 then
      (.err 500 ("Script failed with exit code " ++ pyStrInt rc), acts2)
    else if env.outputFileExists then
      let acts3 := acts2 ++ [Action.uploadAttempt outFile]
      match env.uploadUrl with
      | some url =>
        (.okGen ⟨"Generation completed successfully",
                 [⟨pyBasename outFile, url⟩]⟩, acts3)
      | none =>
        (.okGen ⟨"Generation completed successfully", []⟩, acts3)
    else
      (.err 500 ("Generated output file not found: " ++ outFile), acts2)

/-- The `/generate` handler (`app.py` lines 217-329). -/
def generate_video (cfgPfxPath sysExe ckptDir : String)
    (req : GenerateRequest) (env : GenerateEnv) :
    PipeResult × List Action :=
  if env.gateAcquired then
    let r := generateBody cfgPfxPath sysExe ckptDir req env
    (r.1, r.2 ++ [Action.rmtree env.tempDir, Action.releaseGate])
  else
    (.err 429 "System busy, please try again later", [])

/-! ### Trace observations

Predicates over action traces used to state the cleanup claims. -/

/-- Directories created by the trace. -/
def createdDirs (acts : List Action) : List String :=
  acts.filterMap fun a => match a with
    | .mkTempDir d => some d
    | .inputDirCreated d => some d
    | .makeDirs d => some d
    | _ => none

/-- Roots passed to `shutil.rmtree` by the trace. -/
def removedRoots (acts : List Action) : List String :=
  acts.filterMap fun a => match a with
    | .rmtree d => some d
    | _ => none

/-- Is `d` the directory `root` itself or a path below it? -/
def underDir (root d : String) : Bool :=
  root == d || pyStarts d (root ++ "/")

/-- Directories created by the trace and covered by no `rmtree` of
the trace: what is still on disk when the handler returns. -/
def remainingDirs (acts : List Action) : List String :=
  (createdDirs acts).filter
    (fun d => !(removedRoots acts).any (fun r => underDir r d))

/-- Is the action a cleanup action (a `rmtree` or the lock release)? -/
def isCleanupAction : Action → Bool
  | .rmtree _ => true
  | .releaseGate => true
  | _ => false

/-- Does a `releaseGate` occur strictly before a `rmtree ws` in the
trace?  (The order the specification prescribes for the cleanup
step.) -/
def releaseThenDestroy (ws : String) : List Action → Bool
  | [] => false
  | Action.releaseGate :: rest =>
    rest.contains (Action.rmtree ws) || releaseThenDestroy ws rest
  | _ :: rest => releaseThenDestroy ws rest

/-! ### Admission gate (`app.py` lines 24-26, 109-113, 219-223)

`_processing_lock` is one process-wide `asyncio.Lock`; each handler
tries `asyncio.wait_for(_processing_lock.acquire(), timeout=1)` and
answers HTTP 429 on timeout.  The gate and its concurrent clients are
modelled as a transition system: `locked` is the lock's state, and
each potential request `i` is `idle` (not yet through the gate),
`admitted` (holds the lock and runs its pipeline), `rejected` (got
the 429 busy answer), or `done` (finished and released). -/

inductive Phase where
  | idle
  | admitted
  | rejected
  | done
deriving DecidableEq

structure GateSys (n : Nat) where
  locked : Bool
  phase : Fin n → Phase

/-- Initial state: lock free, every request still to arrive. -/
def initSys (n : Nat) : GateSys n := ⟨false, fun _ => Phase.idle⟩

/-- The gate's transitions.  `acquireOk` is a successful
`_processing_lock.acquire()`; `acquireTimeout` is the
`asyncio.TimeoutError` branch answered with HTTP 429 while the lock
is held; `release` is the holder's `_processing_lock.release()` in
its `finally` block. -/
inductive GateStep {n : Nat} : GateSys n → GateSys n → Prop where
  | acquireOk (s : GateSys n) (i : Fin n)
      (hl : s.locked = false) (hp : s.phase i = Phase.idle) :
      GateStep s ⟨true, Function.update s.phase i Phase.admitted⟩
  | acquireTimeout (s : GateSys n) (i : Fin n)
      (hl : s.locked = true) (hp : s.phase i = Phase.idle) :
      GateStep s ⟨true, Function.update s.phase i Phase.rejected⟩
  | release (s : GateSys n) (i : Fin n)
      (hp : s.phase i = Phase.admitted) :
      GateStep s ⟨false, Function.update s.phase i Phase.done⟩

/-- States reachable from the initial state. -/
def GateReachable {n : Nat} (s : GateSys n) : Prop :=
  Relation.ReflTransGen GateStep (initSys n) s

/-- The inductive invariant of the gate: admitted requests hold the
lock, and there is at most one of them. -/
def GateInv {n : Nat} (s : GateSys n) : Prop :=
  (∀ i j, s.phase i = Phase.admitted → s.phase j = Phase.admitted → i = j) ∧
  (s.locked = false → ∀ i, s.phase i ≠ Phase.admitted)

/-! ### Concrete runs used by counterexamples and witnesses -/

/-- A well-formed preprocess request. -/
def reqA : PreprocessRequest :=
  { video_path := "s3://bkt/in/video.mp4"
    refer_path := "s3://bkt/in/ref.jpg"
    resolution_area := [1280, 720] }

/-- A fully successful preprocess run: gate acquired, both inputs
downloaded (their helper directories are `/tmp/dlv` and `/tmp/dlr`),
child exits 0. -/
def envA : PreprocessEnv :=
  { gateAcquired := true
    tempDir := "/tmp/ws"
    uid := "job"
    videoDl := .ok "/tmp/dlv"
    referDl := .ok "/tmp/dlr"
    outputLines := ["Process completed with return code: 0\n"]
    walkFiles := []
    uploadUrl := fun _ => none }

/-- A well-formed generate request. -/
def reqB : GenerateRequest :=
  { task := "animate-14B"
    src_root_path := "s3://bkt/src/" }

/-- A fully successful generate run. -/
def envB : GenerateEnv :=
  { gateAcquired := true
    tempDir := "/tmp/gws"
    uid := "gen"
    srcDl := .ok "/tmp/dls"
    outputLines := ["Process completed with return code: 0\n"]
    outputFileExists := true
    uploadUrl := some "https://signed.example/u" }

/-- A state of the two-client gate system in which client 0 holds the
slot and client 1 has not attempted yet. -/
def heldState : GateSys 2 :=
  ⟨true, Function.update (initSys 2).phase 0 Phase.admitted⟩

/-- A valid preprocess request in replace mode. -/
def reqC : PreprocessRequest :=
  { video_path := "s3://bkt/in/video.mp4"
    refer_path := "s3://bkt/in/ref.jpg"
    resolution_area := [1280, 720]
    iterations := some 10
    k := some 2
    w_len := some 64
    h_len := some 64
    replace_flag := true }

/-- A valid preprocess request in flux / retarget mode. -/
def reqD : PreprocessRequest :=
  { video_path := "s3://bkt/in/video.mp4"
    refer_path := "s3://bkt/in/ref.jpg"
    resolution_area := [1280, 720]
    retarget_flag := true
    use_flux := true }

/-- A valid multi-process generate request. -/
def reqE : GenerateRequest :=
  { task := "animate-14B"
    src_root_path := "s3://bkt/src/"
    nproc_per_node := 4
    nnodes := 1
    dit_fsdp := true
    t5_fsdp := true
    ulysses_size := some 2 }

/-- The preprocess run rejected at the gate. -/
def envABusy : PreprocessEnv := { envA with gateAcquired := false }

/-- The generate run rejected at the gate. -/
def envBBusy : GenerateEnv := { envB with gateAcquired := false }

/-- A generate run where everything succeeds except the upload /
presigned-URL step, which yields `None`. -/
def envBNoUrl : GenerateEnv := { envB with uploadUrl := none }

/-! ## Helper lemmas -/

theorem foldl_update_concat (lines : List String) (l : String) :
    interpretOutput (lines ++ [l]) =
      updateReturnCode (interpretOutput lines) l := by
  simp [interpretOutput, List.foldl_append]

/-- C5 helper: the streamed-lines fold never raises; one sentinel
line fixes the code. -/
theorem updateReturnCode_sentinel (code : Int) (l : String)
    (hsent : pyContains l sentinelText = true) :
    updateReturnCode code l =
      match pyIntParse (pyStrip ((pySplitChar ':' l).getLastD "")) with
      | some n => n
      | none => 1 := by
  simp [updateReturnCode, hsent]

@[simp] theorem removedRoots_nil : removedRoots [] = [] := rfl

@[simp] theorem removedRoots_append (xs ys : List Action) :
    removedRoots (xs ++ ys) = removedRoots xs ++ removedRoots ys := by
  simp [removedRoots, List.filterMap_append]

@[simp] theorem removedRoots_cons_mk (d : String) (acts : List Action) :
    removedRoots (Action.mkTempDir d :: acts) = removedRoots acts := by
  simp [removedRoots, List.filterMap_cons]

@[simp] theorem removedRoots_cons_input (d : String) (acts : List Action) :
    removedRoots (Action.inputDirCreated d :: acts) = removedRoots acts := by
  simp [removedRoots, List.filterMap_cons]

@[simp] theorem removedRoots_cons_mkdirs (d : String) (acts : List Action) :
    removedRoots (Action.makeDirs d :: acts) = removedRoots acts := by
  simp [removedRoots, List.filterMap_cons]

@[simp] theorem removedRoots_cons_spawn (c : List String) (acts : List Action) :
    removedRoots (Action.spawn c :: acts) = removedRoots acts := by
  simp [removedRoots, List.filterMap_cons]

@[simp] theorem removedRoots_cons_upload (f : String) (acts : List Action) :
    removedRoots (Action.uploadAttempt f :: acts) = removedRoots acts := by
  simp [removedRoots, List.filterMap_cons]

@[simp] theorem removedRoots_cons_rmtree (d : String) (acts : List Action) :
    removedRoots (Action.rmtree d :: acts) = d :: removedRoots acts := by
  simp [removedRoots, List.filterMap_cons]

@[simp] theorem removedRoots_cons_release (acts : List Action) :
    removedRoots (Action.releaseGate :: acts) = removedRoots acts := by
  simp [removedRoots, List.filterMap_cons]

@[simp] theorem removedRoots_dl (dl : DlResult) :
    removedRoots dl.actions = [] := by
  cases dl <;> rfl

@[simp] theorem removedRoots_uploads (fs : List String) :
    removedRoots (fs.map Action.uploadAttempt) = [] := by
  induction fs with
  | nil => rfl
  | cons f rest ih => simpa using ih

@[simp] theorem releaseGate_not_dl (dl : DlResult) :
    Action.releaseGate ∉ dl.actions := by
  cases dl <;> simp [DlResult.actions]

@[simp] theorem rmtree_not_dl (dl : DlResult) (d : String) :
    Action.rmtree d ∉ dl.actions := by
  cases dl <;> simp [DlResult.actions]

theorem createdDirs_of_inputDir {acts : List Action} {d : String}
    (h : Action.inputDirCreated d ∈ acts) : d ∈ createdDirs acts :=
  List.mem_filterMap.2 ⟨_, h, rfl⟩

/-- The `try` body of `/preprocess` performs no `shutil.rmtree`. -/
theorem preprocessBody_removedRoots (cfgP sysE ck : String)
    (req : PreprocessRequest) (env : PreprocessEnv) :
    removedRoots (preprocessBody cfgP sysE ck req env).2 = [] := by
  unfold preprocessBody
  dsimp only
  split
  · simp
  · split
    · simp
    · split
      · simp
      · split
        · simp
        · simp

/-- The `try` body of `/preprocess` never releases the lock. -/
theorem preprocessBody_no_release (cfgP sysE ck : String)
    (req : PreprocessRequest) (env : PreprocessEnv) :
    Action.releaseGate ∉ (preprocessBody cfgP sysE ck req env).2 := by
  unfold preprocessBody
  dsimp only
  split
  · simp
  · split
    · simp
    · split
      · simp
      · split
        · simp
        · simp

/-- The `try` body of `/generate` performs no `shutil.rmtree`. -/
theorem generateBody_removedRoots (cfgP sysE ckD : String)
    (req : GenerateRequest) (env : GenerateEnv) :
    removedRoots (generateBody cfgP sysE ckD req env).2 = [] := by
  unfold generateBody
  dsimp only
  split
  · simp
  · split
    · simp
    · split
      · split
        · simp
        · simp
      · simp

/-- The `try` body of `/generate` never releases the lock. -/
theorem generateBody_no_release (cfgP sysE ckD : String)
    (req : GenerateRequest) (env : GenerateEnv) :
    Action.releaseGate ∉ (generateBody cfgP sysE ckD req env).2 := by
  unfold generateBody
  dsimp only
  split
  · simp
  · split
    · simp
    · split
      · split
        · simp
        · simp
      · simp

theorem digitChar_isDigit {n : Nat} (h : n < 10) :
    (digitChar n).isDigit = true := by
  interval_cases n <;> decide

theorem natDigitsAux_decomp (fuel : Nat) : ∀ (n : Nat) (acc : List Char),
    ∃ ds, natDigitsAux fuel n acc = ds ++ acc ∧ ∀ c ∈ ds, c.isDigit = true := by
  induction fuel with
  | zero => exact fun n acc => ⟨[], rfl, by simp⟩
  | succ fuel ih =>
    intro n acc
    by_cases h : n < 10
    · refine ⟨[digitChar n], by simp [natDigitsAux, h], ?_⟩
      intro c hc
      simp only [List.mem_singleton] at hc
      subst hc
      exact digitChar_isDigit h
    · obtain ⟨ds, hds, hdig⟩ := ih (n / 10) (digitChar (n % 10) :: acc)
      refine ⟨ds ++ [digitChar (n % 10)], ?_, ?_⟩
      · simp [natDigitsAux, h, hds]
      · intro c hc
        rcases List.mem_append.1 hc with h1 | h1
        · exact hdig c h1
        · simp only [List.mem_singleton] at h1
          subst h1
          exact digitChar_isDigit (Nat.mod_lt _ (by norm_num))

/-- `str(n)` for a natural number is a nonempty digit string. -/
theorem pyStrNat_shape (n : Nat) :
    ∃ c cs, (pyStrNat n).toList = c :: cs ∧ c.isDigit = true := by
  show ∃ c cs, natDigitsAux (n + 1) n [] = c :: cs ∧ c.isDigit = true
  by_cases h : n < 10
  · exact ⟨digitChar n, [], by simp [natDigitsAux, h], digitChar_isDigit h⟩
  · obtain ⟨ds, hds, hdig⟩ := natDigitsAux_decomp n (n / 10) [digitChar (n % 10)]
    rw [show natDigitsAux (n + 1) n [] =
          natDigitsAux n (n / 10) [digitChar (n % 10)] from by
        simp [natDigitsAux, h],
      hds]
    cases ds with
    | nil =>
      exact ⟨digitChar (n % 10), [], rfl,
        digitChar_isDigit (Nat.mod_lt _ (by norm_num))⟩
    | cons c rest =>
      exact ⟨c, rest ++ [digitChar (n % 10)], by simp, hdig c (by simp)⟩

/-- `str(n)` never is a `--`-style flag string. -/
theorem pyStrInt_ne_dashdash (n : Int) (f : String)
    (hf : f.toList.take 2 = ['-', '-']) : pyStrInt n ≠ f := by
  intro he
  rw [← he] at hf
  by_cases hn : n < 0
  · rw [pyStrInt, if_pos hn] at hf
    obtain ⟨c, cs, hcs, hc⟩ := pyStrNat_shape n.natAbs
    rw [show ("-" ++ pyStrNat n.natAbs).toList =
          '-' :: (pyStrNat n.natAbs).toList from rfl, hcs] at hf
    simp only [List.take_succ_cons, List.take_zero, List.cons.injEq] at hf
    rw [hf.2.1] at hc
    simp at hc
  · rw [pyStrInt, if_neg hn] at hf
    obtain ⟨c, cs, hcs, hc⟩ := pyStrNat_shape n.natAbs
    rw [hcs] at hf
    simp only [List.take_succ_cons, List.cons.injEq] at hf
    rw [hf.1] at hc
    simp at hc

/-- `str(x)` of an `Optional[int]` never is a `--`-style flag. -/
theorem pyStrOptInt_ne_dashdash (o : Option Int) (f : String)
    (hf : f.toList.take 2 = ['-', '-']) : pyStrOptInt o ≠ f := by
  cases o with
  | none =>
    intro he
    rw [← he] at hf
    exact absurd hf (by decide)
  | some n => exact pyStrInt_ne_dashdash n f hf

theorem containsPair_append_right (a b : String) (xs l : List String)
    (h : containsPair a b l = true) :
    containsPair a b (xs ++ l) = true := by
  induction xs with
  | nil => simpa using h
  | cons x xs ih =>
    cases hxl : xs ++ l with
    | nil =>
      rcases List.append_eq_nil.mp hxl with ⟨_, hl⟩
      subst hl
      simp [containsPair] at h
    | cons y rest =>
      rw [List.cons_append, hxl]
      show containsPair a b (x :: y :: rest) = true
      rw [containsPair, ← hxl, ih]
      simp

/-- A `--`-flag string can only occur in the generate base command by
being one of the caller-supplied strings listed in `hne`, one of the
fixed literals listed in `hlit`, or a rendered integer (impossible). -/
theorem flag_not_mem_generateBase (sysE ckD src out : String)
    (r : GenerateRequest) (f : String)
    (hfl : f.toList.take 2 = ['-', '-'])
    (hne : f ∉ [sysE, ckD, src, out, r.task])
    (hlit : f ∉ (["generate.py", "--task", "--ckpt_dir", "--src_root_path",
      "--refert_num", "--save_file", "--replace_flag",
      "--use_relighting_lora"] : List String)) :
    f ∉ generateBase sysE ckD src out r := by
  intro hf
  simp only [List.mem_cons, List.not_mem_nil, or_false, not_or] at hne hlit
  obtain ⟨hn1, hn2, hn3, hn4, hn5⟩ := hne
  obtain ⟨hl1, hl2, hl3, hl4, hl5, hl6, hl7, hl8⟩ := hlit
  simp only [generateBase, List.mem_append, List.mem_cons,
    List.not_mem_nil, or_false] at hf
  rcases hf with (h | h | h | h | h | h | h | h | h | h | h | h) | h
  · exact hn1 h
  · exact hl1 h
  · exact hl2 h
  · exact hn5 h
  · exact hl3 h
  · exact hn2 h
  · exact hl4 h
  · exact hn3 h
  · exact hl5 h
  · exact pyStrInt_ne_dashdash r.refert_num f hfl h.symm
  · exact hl6 h
  · exact hn4 h
  · split at h
    · simp only [List.mem_cons, List.not_mem_nil, or_false] at h
      rcases h with h | h
      · exact hl7 h
      · exact hl8 h
    · simp at h

/-! ## Claim theorems -/

/-- C6: under the upstream validator, a generate request with more
than one process per node yields a command carrying the
`torch.distributed.run` launch invocation with `--nnodes` and
`--nproc_per_node` up front and the three sharding flags
(`--dit_fsdp`, `--t5_fsdp`, `--ulysses_size <u>`); with one process
per node the command is exactly the base command and none of the
three sharding flags appears. -/
theorem c6_generate_command (sysE ckD src out : String)
    (r : GenerateRequest) (hv : r.valid = true)
    (hclean : ∀ f ∈ ["--dit_fsdp", "--t5_fsdp", "--ulysses_size"],
      f ∉ [sysE, ckD, src, out, r.task]) :
    (r.nproc_per_node > 1 →
      ∃ u rest, r.ulysses_size = some u ∧
        buildGenerateCommand sysE ckD src out r =
          [sysE, "-m", "torch.distributed.run",
           "--nnodes", pyStrInt r.nnodes,
           "--nproc_per_node", pyStrInt r.nproc_per_node] ++ rest ∧
        "--dit_fsdp" ∈ buildGenerateCommand sysE ckD src out r ∧
        "--t5_fsdp" ∈ buildGenerateCommand sysE ckD src out r ∧
        containsPair "--ulysses_size" (pyStrInt u)
          (buildGenerateCommand sysE ckD src out r) = true) ∧
    (r.nproc_per_node = 1 →
      buildGenerateCommand sysE ckD src out r =
        generateBase sysE ckD src out r ∧
      "--dit_fsdp" ∉ buildGenerateCommand sysE ckD src out r ∧
      "--t5_fsdp" ∉ buildGenerateCommand sysE ckD src out r ∧
      "--ulysses_size" ∉ buildGenerateCommand sysE ckD src out r) := by
  constructor
  · intro hn
    have hv' := hv
    simp only [GenerateRequest.valid, Bool.and_eq_true, Bool.or_eq_true,
      Bool.not_eq_true', decide_eq_false_iff_not, not_not] at hv'
    have hflags : r.dit_fsdp = true ∧ r.t5_fsdp = true ∧
        r.ulysses_size.isSome = true := by
      rcases hv'.2 with h | h
      · exact absurd hn (by simpa using h)
      · have h' := h
        simp only [Bool.and_eq_true] at h'
        exact ⟨h'.1.1, h'.1.2, h'.2⟩
    obtain ⟨hd, ht, hsome⟩ := hflags
    obtain ⟨u, hu⟩ := Option.isSome_iff_exists.mp hsome
    have hcmd : buildGenerateCommand sysE ckD src out r =
        [sysE, "-m", "torch.distributed.run",
         "--nnodes", pyStrInt r.nnodes,
         "--nproc_per_node", pyStrInt r.nproc_per_node] ++
        ((generateBase sysE ckD src out r).drop 1 ++
          (["--dit_fsdp"] ++
            (["--t5_fsdp"] ++ ["--ulysses_size", pyStrInt u]))) := by
      rw [buildGenerateCommand, if_pos hn, hd, ht, hu]
      simp
    refine ⟨u, _, hu, hcmd, ?_, ?_, ?_⟩
    · rw [hcmd]
      simp
    · rw [hcmd]
      simp
    · rw [hcmd]
      apply containsPair_append_right
      apply containsPair_append_right
      apply containsPair_append_right
      apply containsPair_append_right
      simp [containsPair]
  · intro h1
    have hno : ¬(r.nproc_per_node > 1) := by omega
    have hcmd : buildGenerateCommand sysE ckD src out r =
        generateBase sysE ckD src out r := by
      rw [buildGenerateCommand, if_neg hno]
    refine ⟨hcmd, ?_, ?_, ?_⟩ <;> rw [hcmd]
    · exact flag_not_mem_generateBase sysE ckD src out r "--dit_fsdp"
        (by decide) (hclean _ (by decide)) (by decide)
    · exact flag_not_mem_generateBase sysE ckD src out r "--t5_fsdp"
        (by decide) (hclean _ (by decide)) (by decide)
    · exact flag_not_mem_generateBase sysE ckD src out r "--ulysses_size"
        (by decide) (hclean _ (by decide)) (by decide)

/-- Witness for C6 at a concrete multi-process request (`reqE`,
`nproc_per_node = 4`) and a concrete single-process request
(`reqB`). -/
theorem c6_witness :
    "--dit_fsdp" ∈ buildGenerateCommand "python3" "/ickpt" "/tmp/dls"
      "/tmp/gws/gen_output.mp4" reqE ∧
    "--t5_fsdp" ∈ buildGenerateCommand "python3" "/ickpt" "/tmp/dls"
      "/tmp/gws/gen_output.mp4" reqE ∧
    containsPair "--ulysses_size" (pyStrInt 2)
      (buildGenerateCommand "python3" "/ickpt" "/tmp/dls"
        "/tmp/gws/gen_output.mp4" reqE) = true ∧
    buildGenerateCommand "python3" "/ickpt" "/tmp/dls"
      "/tmp/gws/gen_output.mp4" reqB =
      generateBase "python3" "/ickpt" "/tmp/dls"
        "/tmp/gws/gen_output.mp4" reqB ∧
    "--dit_fsdp" ∉ buildGenerateCommand "python3" "/ickpt" "/tmp/dls"
      "/tmp/gws/gen_output.mp4" reqB := by
  have hE := c6_generate_command "python3" "/ickpt" "/tmp/dls"
    "/tmp/gws/gen_output.mp4" reqE (by decide) (by decide)
  have hB := c6_generate_command "python3" "/ickpt" "/tmp/dls"
    "/tmp/gws/gen_output.mp4" reqB (by decide) (by decide)
  obtain ⟨u, rest, hu, _, hd, ht, hcp⟩ := hE.1 (by decide)
  obtain ⟨heq, hnd, _, _⟩ := hB.2 rfl
  have hu2 : (2 : Int) = u := Option.some.inj hu
  exact ⟨hd, ht, by rwa [← hu2] at hcp, heq, hnd⟩

/-- A `--`-flag string can only occur in the preprocess base command
by being one of the caller-supplied strings in `hne`, one of the
fixed literals in `hlit`, or a rendered integer (impossible). -/
theorem flag_not_mem_preprocessBase (sysE ck v rf sp : String)
    (a b : Int) (f : String)
    (hfl : f.toList.take 2 = ['-', '-'])
    (hne : f ∉ [sysE, ck, v, rf, sp])
    (hlit : f ∉ (["wan/modules/animate/preprocess/preprocess_data.py",
      "--ckpt_path", "--video_path", "--refer_path", "--save_path",
      "--resolution_area"] : List String)) :
    f ∉ preprocessBase sysE ck v rf sp a b := by
  intro hf
  simp only [List.mem_cons, List.not_mem_nil, or_false, not_or] at hne hlit
  obtain ⟨hn1, hn2, hn3, hn4, hn5⟩ := hne
  obtain ⟨hl1, hl2, hl3, hl4, hl5, hl6⟩ := hlit
  simp only [preprocessBase, List.mem_cons, List.not_mem_nil,
    or_false] at hf
  rcases hf with h | h | h | h | h | h | h | h | h | h | h | h
  · exact hn1 h
  · exact hl1 h
  · exact hl2 h
  · exact hn2 h
  · exact hl3 h
  · exact hn3 h
  · exact hl4 h
  · exact hn4 h
  · exact hl5 h
  · exact hn5 h
  · exact hl6 h
  · rcases h with h | h
    · exact pyStrInt_ne_dashdash a f hfl h.symm
    · exact pyStrInt_ne_dashdash b f hfl h.symm

/-- C7: under the upstream validator, a replace-mode preprocess
request yields an argument vector containing `--iterations <v>`,
`--k <v>`, `--w_len <v>`, `--h_len <v>` and `--replace_flag`; a
flux-mode request instead contains `--retarget_flag` and `--use_flux`
and omits all four replace parameters and the replace flag; and the
two extensions never appear together. -/
theorem c7_preprocess_command (sysE ck v rf sp : String)
    (r : PreprocessRequest) (a b : Int) (rest : List Int)
    (hres : r.resolution_area = a :: b :: rest)
    (hv : r.valid = true)
    (hclean : ∀ f ∈ ["--iterations", "--k", "--w_len", "--h_len",
        "--replace_flag", "--retarget_flag", "--use_flux"],
      f ∉ [sysE, ck, v, rf, sp]) :
    buildPreprocessCommand sysE ck v rf sp r =
      some (preprocessBase sysE ck v rf sp a b ++ preprocessExt r) ∧
    (r.replace_flag = true →
      containsPair "--iterations" (pyStrOptInt r.iterations)
        (preprocessBase sysE ck v rf sp a b ++ preprocessExt r) = true ∧
      containsPair "--k" (pyStrOptInt r.k)
        (preprocessBase sysE ck v rf sp a b ++ preprocessExt r) = true ∧
      containsPair "--w_len" (pyStrOptInt r.w_len)
        (preprocessBase sysE ck v rf sp a b ++ preprocessExt r) = true ∧
      containsPair "--h_len" (pyStrOptInt r.h_len)
        (preprocessBase sysE ck v rf sp a b ++ preprocessExt r) = true ∧
      "--replace_flag" ∈ preprocessBase sysE ck v rf sp a b ++ preprocessExt r) ∧
    (r.use_flux = true →
      "--retarget_flag" ∈ preprocessBase sysE ck v rf sp a b ++ preprocessExt r ∧
      "--use_flux" ∈ preprocessBase sysE ck v rf sp a b ++ preprocessExt r ∧
      "--iterations" ∉ preprocessBase sysE ck v rf sp a b ++ preprocessExt r ∧
      "--k" ∉ preprocessBase sysE ck v rf sp a b ++ preprocessExt r ∧
      "--w_len" ∉ preprocessBase sysE ck v rf sp a b ++ preprocessExt r ∧
      "--h_len" ∉ preprocessBase sysE ck v rf sp a b ++ preprocessExt r ∧
      "--replace_flag" ∉ preprocessBase sysE ck v rf sp a b ++ preprocessExt r) ∧
    ¬("--replace_flag" ∈ preprocessBase sysE ck v rf sp a b ++ preprocessExt r ∧
      "--use_flux" ∈ preprocessBase sysE ck v rf sp a b ++ preprocessExt r) := by
  have hbase : ∀ f ∈ ["--iterations", "--k", "--w_len", "--h_len",
      "--replace_flag", "--retarget_flag", "--use_flux"],
      f ∉ preprocessBase sysE ck v rf sp a b := by
    intro f hfmem
    refine flag_not_mem_preprocessBase sysE ck v rf sp a b f ?_
      (hclean f hfmem) ?_
    · fin_cases hfmem <;> decide
    · fin_cases hfmem <;> decide
  refine ⟨?_, ?_, ?_, ?_⟩
  · simp [buildPreprocessCommand, hres]
  · intro hrep
    have hext : preprocessExt r =
        ["--iterations", pyStrOptInt r.iterations,
         "--k", pyStrOptInt r.k,
         "--w_len", pyStrOptInt r.w_len,
         "--h_len", pyStrOptInt r.h_len,
         "--replace_flag"] := by
      simp [preprocessExt, hrep]
    rw [hext]
    refine ⟨?_, ?_, ?_, ?_, by simp⟩
    all_goals
      apply containsPair_append_right
      simp [containsPair]
  · intro hflux
    have hrepf : r.replace_flag = false := by
      have hv' := hv
      simp only [PreprocessRequest.valid, Bool.and_eq_true] at hv'
      have hA := hv'.1.1
      rw [Bool.not_eq_true'] at hA
      rwa [hflux, Bool.and_true] at hA
    have hext : preprocessExt r = ["--retarget_flag", "--use_flux"] := by
      simp [preprocessExt, hrepf, hflux]
    rw [hext]
    refine ⟨by simp, by simp, ?_, ?_, ?_, ?_, ?_⟩
    all_goals
      intro hmem
      rcases List.mem_append.1 hmem with h | h
      · exact hbase _ (by decide) h
      · exact absurd h (by decide)
  · rintro ⟨hrep, hflux⟩
    by_cases hr : r.replace_flag = true
    · have hext : preprocessExt r =
          ["--iterations", pyStrOptInt r.iterations,
           "--k", pyStrOptInt r.k,
           "--w_len", pyStrOptInt r.w_len,
           "--h_len", pyStrOptInt r.h_len,
           "--replace_flag"] := by
        simp [preprocessExt, hr]
      rw [hext] at hflux
      rcases List.mem_append.1 hflux with h | h
      · exact hbase "--use_flux" (by decide) h
      · simp only [List.mem_cons, List.not_mem_nil, or_false] at h
        rcases h with h | h | h | h | h | h | h | h | h
        · exact absurd h (by decide)
        · exact pyStrOptInt_ne_dashdash r.iterations _ (by decide) h.symm
        · exact absurd h (by decide)
        · exact pyStrOptInt_ne_dashdash r.k _ (by decide) h.symm
        · exact absurd h (by decide)
        · exact pyStrOptInt_ne_dashdash r.w_len _ (by decide) h.symm
        · exact absurd h (by decide)
        · exact pyStrOptInt_ne_dashdash r.h_len _ (by decide) h.symm
        · exact absurd h (by decide)
    · have hrf : r.replace_flag = false := by simpa using hr
      rcases List.mem_append.1 hrep with h | h
      · exact hbase "--replace_flag" (by decide) h
      · rw [preprocessExt, if_neg (by simp [hrf])] at h
        split at h
        · exact absurd h (by decide)
        · exact absurd h (by simp)

/-- Witness for C7 at a concrete replace-mode request (`reqC`) and a
concrete flux-mode request (`reqD`). -/
theorem c7_witness :
    containsPair "--iterations" (pyStrOptInt reqC.iterations)
      (preprocessBase "python3" "/ckpt" "/tmp/v" "/tmp/r" "/tmp/out"
        1280 720 ++ preprocessExt reqC) = true ∧
    "--replace_flag" ∈ preprocessBase "python3" "/ckpt" "/tmp/v" "/tmp/r"
      "/tmp/out" 1280 720 ++ preprocessExt reqC ∧
    "--use_flux" ∈ preprocessBase "python3" "/ckpt" "/tmp/v" "/tmp/r"
      "/tmp/out" 1280 720 ++ preprocessExt reqD ∧
    "--iterations" ∉ preprocessBase "python3" "/ckpt" "/tmp/v" "/tmp/r"
      "/tmp/out" 1280 720 ++ preprocessExt reqD := by
  have hC := c7_preprocess_command "python3" "/ckpt" "/tmp/v" "/tmp/r"
    "/tmp/out" reqC 1280 720 [] rfl (by decide) (by decide)
  have hD := c7_preprocess_command "python3" "/ckpt" "/tmp/v" "/tmp/r"
    "/tmp/out" reqD 1280 720 [] rfl (by decide) (by decide)
  have h1 := hC.2.1 rfl
  have h2 := hD.2.2.1 rfl
  exact ⟨h1.1, h1.2.2.2.2, h2.2.1, h2.2.2.1⟩

theorem beginsWith_iff {α : Type} [BEq α] [LawfulBEq α] (pat l : List α) :
    beginsWith pat l = true ↔ ∃ rest, l = pat ++ rest := by
  induction pat generalizing l with
  | nil =>
    constructor
    · intro _
      exact ⟨l, rfl⟩
    · intro _
      rfl
  | cons a as ih =>
    cases l with
    | nil =>
      constructor
      · intro h
        exact absurd h (by simp [beginsWith])
      · rintro ⟨rest, h⟩
        simp at h
    | cons b bs =>
      constructor
      · intro h
        simp only [beginsWith, Bool.and_eq_true, beq_iff_eq] at h
        obtain ⟨hab, h2⟩ := h
        obtain ⟨rest, hrest⟩ := (ih bs).1 h2
        exact ⟨rest, by rw [← hab, hrest]; rfl⟩
      · rintro ⟨rest, hrest⟩
        simp only [List.cons_append, List.cons.injEq] at hrest
        obtain ⟨hb, hbs⟩ := hrest
        show (a == b && beginsWith as bs) = true
        rw [hb]
        simp [(ih bs).2 ⟨rest, hbs⟩]

theorem commonLen_append_self (s t : List String) :
    commonLen (s ++ t) s = s.length := by
  induction s with
  | nil => cases t <;> simp [commonLen]
  | cons a as ih => simp [commonLen, ih]

/-- `os.path.relpath` on a path strictly below `start` is the leftover
suffix of components. -/
theorem relpathComponents_of_under (k p : String) (rest : List String)
    (h : splitPath k = splitPath p ++ rest) (hne : rest ≠ []) :
    relpathComponents k p = rest := by
  unfold relpathComponents
  dsimp only
  rw [h, commonLen_append_self, Nat.sub_self]
  simp [List.drop_left, hne]

/-- C8: the folder download slash-normalizes the prefix, skips keys
ending in the separator, and materializes exactly one local relative
path per remaining key — the key's components relative to the
normalized prefix — so N non-marker objects yield the same N relative
paths (distinct keys giving distinct local paths). -/
theorem c8_download_listing (pfx : String) (keys : List String)
    (h : ∀ k ∈ keys, endsWithSlash k = false →
      beginsWith (splitPath (slashNormalize pfx)) (splitPath k) = true ∧
      (splitPath (slashNormalize pfx)).length < (splitPath k).length) :
    folderListingRelPaths pfx keys =
      (keys.filter (fun k => !endsWithSlash k)).map
        (fun k => (splitPath k).drop (splitPath (slashNormalize pfx)).length) ∧
    (folderListingRelPaths pfx keys).length =
      (keys.filter (fun k => !endsWithSlash k)).length ∧
    (((keys.filter (fun k => !endsWithSlash k)).map splitPath).Nodup →
      (folderListingRelPaths pfx keys).Nodup) := by
  have hmem : ∀ k ∈ keys.filter (fun k => !endsWithSlash k),
      ∃ rest, rest ≠ [] ∧
        splitPath k = splitPath (slashNormalize pfx) ++ rest := by
    intro k hk
    obtain ⟨hk1, hk2⟩ := List.mem_filter.1 hk
    have hk2' : endsWithSlash k = false := by simpa using hk2
    obtain ⟨hbw, hlen⟩ := h k hk1 hk2'
    obtain ⟨rest, hrest⟩ := (beginsWith_iff _ _).1 hbw
    refine ⟨rest, ?_, hrest⟩
    intro hr
    rw [hr, List.append_nil] at hrest
    rw [hrest] at hlen
    exact lt_irrefl _ hlen
  have hrel : ∀ k ∈ keys.filter (fun k => !endsWithSlash k),
      relpathComponents k (slashNormalize pfx) =
        (splitPath k).drop (splitPath (slashNormalize pfx)).length := by
    intro k hk
    obtain ⟨rest, hne, hrest⟩ := hmem k hk
    rw [relpathComponents_of_under k (slashNormalize pfx) rest hrest hne,
      hrest, List.drop_left]
  have h1 : folderListingRelPaths pfx keys =
      (keys.filter (fun k => !endsWithSlash k)).map
        (fun k => (splitPath k).drop (splitPath (slashNormalize pfx)).length) := by
    unfold folderListingRelPaths
    exact List.map_congr_left hrel
  refine ⟨h1, by rw [h1]; simp, ?_⟩
  intro hnd
  rw [h1,
    show (keys.filter (fun k => !endsWithSlash k)).map
        (fun k => (splitPath k).drop (splitPath (slashNormalize pfx)).length) =
      ((keys.filter (fun k => !endsWithSlash k)).map splitPath).map
        (fun l => l.drop (splitPath (slashNormalize pfx)).length) from by
      rw [List.map_map]
      rfl]
  refine List.Nodup.map_on ?_ hnd
  intro x hx y hy hxy
  obtain ⟨kx, hkx, hkx2⟩ := List.mem_map.1 hx
  obtain ⟨ky, hky, hky2⟩ := List.mem_map.1 hy
  obtain ⟨restx, hnex, hrx⟩ := hmem kx hkx
  obtain ⟨resty, hney, hry⟩ := hmem ky hky
  subst hkx2 hky2
  rw [hrx, hry] at hxy ⊢
  rw [List.drop_left, List.drop_left] at hxy
  rw [hxy]

/-- Witness for C8 on a three-key listing with one directory marker:
two non-marker objects yield exactly their two relative paths. -/
theorem c8_witness :
    folderListingRelPaths "data"
      ["data/a.txt", "data/sub/b.txt", "data/sub/"] =
      [["a.txt"], ["sub", "b.txt"]] ∧
    (folderListingRelPaths "data"
      ["data/a.txt", "data/sub/b.txt", "data/sub/"]).length = 2 ∧
    (folderListingRelPaths "data"
      ["data/a.txt", "data/sub/b.txt", "data/sub/"]).Nodup := by
  have h := c8_download_listing "data"
    ["data/a.txt", "data/sub/b.txt", "data/sub/"] (by decide)
  refine ⟨?_, ?_, h.2.2 (by decide)⟩
  · rw [h.1]
    decide
  · rw [h.2.1]
    decide

/-- C9: `upload_file_and_get_presigned_url` derives the remote key
from the prefix (trailing slashes stripped) joined with the file's
base name; on a confirmed successful upload it deletes the local file
and returns the presigned URL for that key with the default expiry of
3600 seconds; if the upload or the URL minting fails it returns
`None` (and a failed upload leaves the filesystem unchanged). -/
theorem c9_upload_and_publish (env : S3Env)
    (bucket cfg pfx filePath : String) (fs : List String)
    (hnd : fs.Nodup) (hmem : filePath ∈ fs) :
    (env.uploadOk = true → env.presignOk = true →
      upload_file_and_get_presigned_url env bucket cfg (some pfx) fs filePath =
        (some ⟨bucket, rstripSlashes pfx ++ "/" ++ pyBasename filePath, 3600⟩,
         fs.erase filePath) ∧
      filePath ∉
        (upload_file_and_get_presigned_url env bucket cfg (some pfx) fs
          filePath).2) ∧
    (env.uploadOk = false →
      (upload_file_and_get_presigned_url env bucket cfg (some pfx) fs
        filePath).1 = none ∧
      (upload_file_and_get_presigned_url env bucket cfg (some pfx) fs
        filePath).2 = fs) ∧
    (env.presignOk = false →
      (upload_file_and_get_presigned_url env bucket cfg (some pfx) fs
        filePath).1 = none) := by
  refine ⟨?_, ?_, ?_⟩
  · intro hu hp
    constructor
    · simp [upload_file_and_get_presigned_url, create_presigned_url,
        hmem, hu, hp]
    · simp [upload_file_and_get_presigned_url, create_presigned_url,
        hmem, hu, hp]
      exact hnd.not_mem_erase
  · intro hu
    constructor <;>
      simp [upload_file_and_get_presigned_url, hmem, hu]
  · intro hp
    by_cases hu : env.uploadOk = true
    · simp [upload_file_and_get_presigned_url, create_presigned_url,
        hmem, hu, hp]
    · simp only [Bool.not_eq_true] at hu
      simp [upload_file_and_get_presigned_url, hmem, hu]

/-- Witness for C9 at a concrete upload of `/tmp/x/out.mp4` under
remote prefix `results/abc/`. -/
theorem c9_witness :
    upload_file_and_get_presigned_url ⟨true, true⟩ "bkt" "cfg"
      (some "results/abc/") ["/tmp/x/out.mp4"] "/tmp/x/out.mp4" =
      (some ⟨"bkt", rstripSlashes "results/abc/" ++ "/" ++
        pyBasename "/tmp/x/out.mp4", 3600⟩, []) ∧
    upload_file_and_get_presigned_url ⟨false, true⟩ "bkt" "cfg"
      (some "results/abc/") ["/tmp/x/out.mp4"] "/tmp/x/out.mp4" =
      (none, ["/tmp/x/out.mp4"]) := by
  have h1 := c9_upload_and_publish ⟨true, true⟩ "bkt" "cfg" "results/abc/"
    "/tmp/x/out.mp4" ["/tmp/x/out.mp4"] (by decide) (by decide)
  have h2 := c9_upload_and_publish ⟨false, true⟩ "bkt" "cfg" "results/abc/"
    "/tmp/x/out.mp4" ["/tmp/x/out.mp4"] (by decide) (by decide)
  refine ⟨?_, ?_⟩
  · have := (h1.1 rfl rfl).1
    simpa using this
  · obtain ⟨ha, hb⟩ := h2.2.1 rfl
    rw [Prod.ext_iff]
    exact ⟨ha, hb⟩

/-- C4: a request whose admission-gate acquisition times out gets
HTTP 429 with the busy message, and the handler performs no action at
all: no workspace creation, no download, no spawned process, no
filesystem or lock effect (empty trace), for both endpoints. -/
theorem c4_busy_no_effects (cfgP sysE ck ckD : String)
    (preq : PreprocessRequest) (penv : PreprocessEnv)
    (greq : GenerateRequest) (genv : GenerateEnv)
    (hp : penv.gateAcquired = false) (hg : genv.gateAcquired = false) :
    preprocess_video cfgP sysE ck preq penv =
      (.err 429 "System busy, please try again later", []) ∧
    generate_video cfgP sysE ckD greq genv =
      (.err 429 "System busy, please try again later", []) := by
  constructor
  · simp [preprocess_video, hp]
  · simp [generate_video, hg]

/-- Witness for C4 at a concrete rejected request pair. -/
theorem c4_witness :
    preprocess_video "store/base" "python3" "/ckpt" reqA envABusy =
      (.err 429 "System busy, please try again later", []) ∧
    generate_video "store/base" "python3" "/ickpt" reqB envBBusy =
      (.err 429 "System busy, please try again later", []) :=
  c4_busy_no_effects "store/base" "python3" "/ckpt" "/ickpt"
    reqA envABusy reqB envBBusy rfl rfl

/-- C5: a final line that carries the sentinel text but whose suffix
after the final colon does not parse as an integer makes the
orchestrator interpret the run as failed with exit code 1 (no parse
exception exists in the model: the fold is total); a valid sentinel
with integer N yields exit code N. -/
theorem c5_sentinel_exit_code (prev : List String) (l : String)
    (hsent : pyContains l sentinelText = true) :
    (pyIntParse (pyStrip ((pySplitChar ':' l).getLastD "")) = none →
      interpretOutput (prev ++ [l]) = 1) ∧
    (∀ n : Int,
      pyIntParse (pyStrip ((pySplitChar ':' l).getLastD "")) = some n →
      interpretOutput (prev ++ [l]) = n) := by
  constructor
  · intro hp
    rw [foldl_update_concat, updateReturnCode_sentinel _ _ hsent, hp]
  · intro n hp
    rw [foldl_update_concat, updateReturnCode_sentinel _ _ hsent, hp]

/-- Witness for C5: a truncated sentinel gives 1, a valid one gives
its integer. -/
theorem c5_witness :
    interpretOutput ["Process completed with return code: x\n"] = 1 ∧
    interpretOutput ["Process completed with return code: 7\n"] = 7 := by
  constructor
  · exact (c5_sentinel_exit_code []
      "Process completed with return code: x\n" (by decide)).1 (by decide)
  · exact (c5_sentinel_exit_code []
      "Process completed with return code: 7\n" (by decide)).2 7 (by decide)

/-- C10: in the generate pipeline, when the child exits 0 and the
output file exists but the upload / presigned-URL helper returns
`None`, the endpoint still answers with the success message and an
empty `output_s3_paths` list. -/
theorem c10_upload_failure_still_success (cfgP sysE ckD : String)
    (req : GenerateRequest) (env : GenerateEnv) (d : String)
    (hg : env.gateAcquired = true) (hdl : env.srcDl = DlResult.ok d)
    (hrc : interpretOutput env.outputLines = 0)
    (hex : env.outputFileExists = true) (hup : env.uploadUrl = none) :
    (generate_video cfgP sysE ckD req env).1 =
      PipeResult.okGen ⟨"Generation completed successfully", []⟩ := by
  simp [generate_video, hg, generateBody, hdl, DlResult.value, hrc, hex, hup]

/-- Witness for C10 at a concrete run whose upload fails. -/
theorem c10_witness :
    (generate_video "store/base" "python3" "/ickpt" reqB envBNoUrl).1 =
      PipeResult.okGen ⟨"Generation completed successfully", []⟩ :=
  c10_upload_failure_still_success "store/base" "python3" "/ickpt"
    reqB envBNoUrl "/tmp/dls" rfl rfl (by decide) rfl rfl

@[simp] theorem underDir_self (d : String) : underDir d d = true := by
  simp [underDir]

/-- C1 counterexample: a fully successful, admitted preprocess job
completes normally, yet the two input directories materialized by the
download helpers (`/tmp/dlv`, `/tmp/dlr`) are still on disk when the
cleanup step finishes — only the workspace is removed.  The claim
that ALL staged directories are removed is therefore false. -/
theorem c1_counterexample :
    (preprocess_video "store/base" "python3" "/ckpt" reqA envA).1 =
      PipeResult.okPre ⟨"Preprocessing completed successfully", [],
        "store/base/preprocess_result/job"⟩ ∧
    remainingDirs
      (preprocess_video "store/base" "python3" "/ckpt" reqA envA).2 =
      ["/tmp/dlv", "/tmp/dlr"] := by
  decide

/-- C1 (amended): on every admitted preprocess job, on every exit
path, the workspace directory is destroyed by the cleanup step; but
every input directory materialized by the download helpers outside
the workspace survives the cleanup step. -/
theorem c1_workspace_cleanup (cfgP sysE ck : String)
    (req : PreprocessRequest) (env : PreprocessEnv)
    (hg : env.gateAcquired = true) :
    Action.rmtree env.tempDir ∈ (preprocess_video cfgP sysE ck req env).2 ∧
    env.tempDir ∉ remainingDirs (preprocess_video cfgP sysE ck req env).2 ∧
    ∀ d, Action.inputDirCreated d ∈ (preprocess_video cfgP sysE ck req env).2 →
      underDir env.tempDir d = false →
      d ∈ remainingDirs (preprocess_video cfgP sysE ck req env).2 := by
  have htr : (preprocess_video cfgP sysE ck req env).2 =
      (preprocessBody cfgP sysE ck req env).2 ++
        [Action.rmtree env.tempDir, Action.releaseGate] := by
    simp [preprocess_video, hg]
  have hrr : removedRoots (preprocess_video cfgP sysE ck req env).2 =
      [env.tempDir] := by
    rw [htr]
    simp [preprocessBody_removedRoots]
  refine ⟨?_, ?_, ?_⟩
  · rw [htr]
    simp
  · intro hmem
    have := (List.mem_filter.1 hmem).2
    rw [hrr] at this
    simp at this
  · intro d hd hout
    refine List.mem_filter.2 ⟨createdDirs_of_inputDir hd, ?_⟩
    rw [hrr]
    simp [hout]

/-- Witness for C1 (amended) at the concrete successful run: the
workspace `/tmp/ws` is gone, the input directory `/tmp/dlv` remains. -/
theorem c1_witness :
    Action.rmtree "/tmp/ws" ∈
      (preprocess_video "store/base" "python3" "/ckpt" reqA envA).2 ∧
    "/tmp/ws" ∉
      remainingDirs (preprocess_video "store/base" "python3" "/ckpt" reqA envA).2 ∧
    "/tmp/dlv" ∈
      remainingDirs (preprocess_video "store/base" "python3" "/ckpt" reqA envA).2 := by
  have h := c1_workspace_cleanup "store/base" "python3" "/ckpt" reqA envA rfl
  exact ⟨h.1, h.2.1, h.2.2 "/tmp/dlv" (by decide) (by decide)⟩

/-- C2 counterexample: a fully successful, admitted generate job
reaches `Done`; its trace contains both cleanup actions, but no
`releaseGate` ever precedes the `rmtree` of the workspace — the code
destroys the workspace first and releases the gate second, the
opposite of the claimed order. -/
theorem c2_counterexample :
    (generate_video "store/base" "python3" "/ickpt" reqB envB).1 =
      PipeResult.okGen ⟨"Generation completed successfully",
        [⟨"gen_output.mp4", "https://signed.example/u"⟩]⟩ ∧
    Action.rmtree "/tmp/gws" ∈
      (generate_video "store/base" "python3" "/ickpt" reqB envB).2 ∧
    Action.releaseGate ∈
      (generate_video "store/base" "python3" "/ickpt" reqB envB).2 ∧
    releaseThenDestroy "/tmp/gws"
      (generate_video "store/base" "python3" "/ickpt" reqB envB).2 = false := by
  decide

/-- C2 (amended): for every admitted job, on both endpoints and on
every exit path, the cleanup step destroys the workspace first and
releases the admission gate second — the very last action is the
release, immediately preceded by the workspace destruction, and no
earlier action is a release or a destruction. -/
theorem c2_destroy_then_release (cfgP sysE ck ckD : String)
    (preq : PreprocessRequest) (penv : PreprocessEnv)
    (greq : GenerateRequest) (genv : GenerateEnv)
    (hp : penv.gateAcquired = true) (hg : genv.gateAcquired = true) :
    ((preprocess_video cfgP sysE ck preq penv).2.getLast? =
        some Action.releaseGate ∧
      (preprocess_video cfgP sysE ck preq penv).2.dropLast.getLast? =
        some (Action.rmtree penv.tempDir) ∧
      Action.releaseGate ∉ (preprocess_video cfgP sysE ck preq penv).2.dropLast ∧
      removedRoots (preprocess_video cfgP sysE ck preq penv).2.dropLast.dropLast
        = []) ∧
    ((generate_video cfgP sysE ckD greq genv).2.getLast? =
        some Action.releaseGate ∧
      (generate_video cfgP sysE ckD greq genv).2.dropLast.getLast? =
        some (Action.rmtree genv.tempDir) ∧
      Action.releaseGate ∉ (generate_video cfgP sysE ckD greq genv).2.dropLast ∧
      removedRoots (generate_video cfgP sysE ckD greq genv).2.dropLast.dropLast
        = []) := by
  have htr : (preprocess_video cfgP sysE ck preq penv).2 =
      ((preprocessBody cfgP sysE ck preq penv).2 ++
        [Action.rmtree penv.tempDir]) ++ [Action.releaseGate] := by
    simp [preprocess_video, hp]
  have htg : (generate_video cfgP sysE ckD greq genv).2 =
      ((generateBody cfgP sysE ckD greq genv).2 ++
        [Action.rmtree genv.tempDir]) ++ [Action.releaseGate] := by
    simp [generate_video, hg]
  constructor
  · rw [htr]
    refine ⟨List.getLast?_concat _, ?_, ?_, ?_⟩
    · rw [List.dropLast_concat, List.getLast?_concat]
    · rw [List.dropLast_concat]
      simp [preprocessBody_no_release cfgP sysE ck preq penv]
    · rw [List.dropLast_concat, List.dropLast_concat]
      exact preprocessBody_removedRoots cfgP sysE ck preq penv
  · rw [htg]
    refine ⟨List.getLast?_concat _, ?_, ?_, ?_⟩
    · rw [List.dropLast_concat, List.getLast?_concat]
    · rw [List.dropLast_concat]
      simp [generateBody_no_release cfgP sysE ckD greq genv]
    · rw [List.dropLast_concat, List.dropLast_concat]
      exact generateBody_removedRoots cfgP sysE ckD greq genv

theorem gateInv_init (n : Nat) : GateInv (initSys n) := by
  constructor
  · intro i j hi hj
    simp [initSys] at hi
  · intro _ i
    simp [initSys]

theorem gateInv_step {n : Nat} {s t : GateSys n}
    (hs : GateInv s) (h : GateStep s t) : GateInv t := by
  obtain ⟨huniq, hfree⟩ := hs
  cases h with
  | acquireOk i hl hp =>
    refine ⟨?_, ?_⟩
    · intro a b ha hb
      show a = b
      rw [show (⟨true, Function.update s.phase i Phase.admitted⟩ :
            GateSys n).phase = Function.update s.phase i Phase.admitted from rfl,
          Function.update_apply] at ha hb
      by_cases hai : a = i
      · by_cases hbi : b = i
        · rw [hai, hbi]
        · rw [if_neg hbi] at hb
          exact absurd hb (hfree hl b)
      · rw [if_neg hai] at ha
        exact absurd ha (hfree hl a)
    · intro hlk
      simp at hlk
  | acquireTimeout i hl hp =>
    refine ⟨?_, ?_⟩
    · intro a b ha hb
      show a = b
      rw [show (⟨true, Function.update s.phase i Phase.rejected⟩ :
            GateSys n).phase = Function.update s.phase i Phase.rejected from rfl,
          Function.update_apply] at ha hb
      by_cases hai : a = i
      · rw [if_pos hai] at ha
        simp at ha
      · rw [if_neg hai] at ha
        by_cases hbi : b = i
        · rw [if_pos hbi] at hb
          simp at hb
        · rw [if_neg hbi] at hb
          exact huniq a b ha hb
    · intro hlk
      simp at hlk
  | release i hp =>
    refine ⟨?_, ?_⟩
    · intro a b ha hb
      show a = b
      rw [show (⟨false, Function.update s.phase i Phase.done⟩ :
            GateSys n).phase = Function.update s.phase i Phase.done from rfl,
          Function.update_apply] at ha hb
      by_cases hai : a = i
      · rw [if_pos hai] at ha
        simp at ha
      · rw [if_neg hai] at ha
        by_cases hbi : b = i
        · rw [if_pos hbi] at hb
          simp at hb
        · rw [if_neg hbi] at hb
          exact huniq a b ha hb
    · intro _ a
      show Function.update s.phase i Phase.done a ≠ Phase.admitted
      rw [Function.update_apply]
      by_cases hai : a = i
      · rw [if_pos hai]
        simp
      · rw [if_neg hai]
        intro ha
        exact hai (huniq a i ha hp)

theorem gateInv_reachable {n : Nat} {s : GateSys n}
    (h : GateReachable s) : GateInv s := by
  induction h with
  | refl => exact gateInv_init n
  | tail _ hstep ih => exact gateInv_step ih hstep

/-- C3: in every reachable state of the gate system, at most one
request is past the admission gate; and while one request holds the
slot, an idle request's acquire attempt can only take the timeout
step (observing Busy / HTTP 429) — no step started from this state
makes it admitted. -/
theorem c3_mutual_exclusion (n : Nat) (s : GateSys n)
    (hr : GateReachable s) :
    (∀ i j, s.phase i = Phase.admitted → s.phase j = Phase.admitted → i = j) ∧
    (∀ i j, s.phase i = Phase.admitted → s.phase j = Phase.idle →
      GateStep s ⟨true, Function.update s.phase j Phase.rejected⟩ ∧
      ∀ t, GateStep s t → t.phase j ≠ Phase.admitted) := by
  obtain ⟨huniq, hfree⟩ := gateInv_reachable hr
  refine ⟨huniq, ?_⟩
  intro i j hi hj
  have hlock : s.locked = true := by
    cases hl : s.locked
    · exact absurd hi (hfree hl i)
    · rfl
  refine ⟨GateStep.acquireTimeout s j hlock hj, ?_⟩
  intro t ht
  cases ht with
  | acquireOk k hl hp =>
    rw [hlock] at hl
    simp at hl
  | acquireTimeout k hl hp =>
    show Function.update s.phase k Phase.rejected j ≠ Phase.admitted
    rw [Function.update_apply]
    by_cases hjk : j = k
    · rw [if_pos hjk]
      simp
    · rw [if_neg hjk, hj]
      simp
  | release k hp =>
    show Function.update s.phase k Phase.done j ≠ Phase.admitted
    rw [Function.update_apply]
    by_cases hjk : j = k
    · rw [if_pos hjk]
      simp
    · rw [if_neg hjk, hj]
      simp

/-- Witness for C3: from the reachable state where client 0 holds the
slot and client 1 is idle, the Busy (429) step for client 1 is
enabled. -/
theorem c3_witness :
    GateStep heldState
      ⟨true, Function.update heldState.phase 1 Phase.rejected⟩ := by
  have hr : GateReachable heldState := by
    refine Relation.ReflTransGen.single ?_
    show GateStep (initSys 2)
      ⟨true, Function.update (initSys 2).phase 0 Phase.admitted⟩
    exact GateStep.acquireOk (initSys 2) 0 rfl rfl
  have h0 : heldState.phase 0 = Phase.admitted := by
    show Function.update (initSys 2).phase 0 Phase.admitted 0 = Phase.admitted
    rw [Function.update_apply, if_pos rfl]
  have h1 : heldState.phase 1 = Phase.idle := by
    show Function.update (initSys 2).phase 0 Phase.admitted 1 = Phase.idle
    rw [Function.update_apply, if_neg (by decide)]
    rfl
  exact ((c3_mutual_exclusion 2 heldState hr).2 0 1 h0 h1).1

/-- Witness for C2 (amended) at concrete successful runs of both
endpoints. -/
theorem c2_witness :
    (preprocess_video "store/base" "python3" "/ckpt" reqA envA).2.getLast? =
      some Action.releaseGate ∧
    (preprocess_video "store/base" "python3" "/ckpt" reqA envA).2.dropLast.getLast?
      = some (Action.rmtree "/tmp/ws") ∧
    (generate_video "store/base" "python3" "/ickpt" reqB envB).2.getLast? =
      some Action.releaseGate ∧
    (generate_video "store/base" "python3" "/ickpt" reqB envB).2.dropLast.getLast?
      = some (Action.rmtree "/tmp/gws") := by
  have h := c2_destroy_then_release "store/base" "python3" "/ckpt" "/ickpt"
    reqA envA reqB envB rfl rfl
  exact ⟨h.1.1, h.1.2.1, h.2.1, h.2.2.1⟩

end Wan
